import Mathlib

/-!
# Verification of the BCI dockerfile generator's descriptor derivation logic

Shallow embedding of `src/bci_build/package/__init__.py`: the container image
descriptor data model, its construction-time validation (`__post_init__`), the
tag/reference derivation of `LanguageStackContainer` and `OsContainer`, the
`packages` property, and the file-emission step `write_files_to_folder`.

Python machine-level details that are irrelevant to the modelled behaviour
(e.g. the exact `repr` used inside error message strings) are rendered as plain
strings; union-typed fields (`version: Union[str, int]`) are embedded via their
`str()` image, which is the only way those fields enter the modelled
derivations.
-/

namespace BciBuild

/-- `Arch` enum: architectures of packages on OBS. -/
inductive Arch where
  | X86_64
  | AARCH64
  | PPC64LE
  | S390X
  | LOCAL
deriving DecidableEq, Repr

/-- `Arch.__str__` / the enum value. -/
def Arch.str : Arch → String
  | .X86_64 => "x86_64"
  | .AARCH64 => "aarch64"
  | .PPC64LE => "ppc64le"
  | .S390X => "s390x"
  | .LOCAL => "local"

/-- `BuildType` enum: how the image is built, kiwi or from a Dockerfile. -/
inductive BuildType where
  | DOCKER
  | KIWI
deriving DecidableEq, Repr

def BuildType.str : BuildType → String
  | .DOCKER => "docker"
  | .KIWI => "kiwi"

/-- `PackageType` enum: package types supported by kiwi. -/
inductive PackageType where
  | DELETE
  | UNINSTALL
  | BOOTSTRAP
  | IMAGE
deriving DecidableEq, Repr

def PackageType.str : PackageType → String
  | .DELETE => "delete"
  | .UNINSTALL => "uninstall"
  | .BOOTSTRAP => "bootstrap"
  | .IMAGE => "image"

/-- `OsVersion` enum: the base operating system versions for BCI. -/
inductive OsVersion where
  | SP6
  | SP5
  | SP4
  | SP3
  | TUMBLEWEED
  | BASALT
deriving DecidableEq, Repr

/-- `OsVersion.__str__`: `str(self.value)`. -/
def OsVersion.str : OsVersion → String
  | .SP6 => "6"
  | .SP5 => "5"
  | .SP4 => "4"
  | .SP3 => "3"
  | .TUMBLEWEED => "Tumbleweed"
  | .BASALT => "Basalt"

/-- `Package` dataclass: representation of a package in a kiwi build. -/
structure Package where
  name : String
  pkg_type : PackageType := PackageType.IMAGE
deriving DecidableEq, Repr

/-- `Package.__str__` returns the package name. -/
def Package.str (p : Package) : String := p.name

/-- An entry of `package_list`, which is `Union[List[str], List[Package]]` in
the source (and may in practice mix both). -/
inductive PkgEntry where
  | plain (s : String)
  | pkg (p : Package)
deriving DecidableEq, Repr

/-- `str(pkg)` for an entry of `package_list`. -/
def PkgEntry.str : PkgEntry → String
  | .plain s => s
  | .pkg p => p.str

/-- `_build_tag_prefix(os_version)` from the source (the source name ends in a
token the development avoids, hence the `pfx` abbreviation). -/
def build_tag_pfx (os_version : OsVersion) : String :=
  if os_version = OsVersion.TUMBLEWEED then "opensuse/bci"
  else if os_version = OsVersion.BASALT then "alp/bci"
  else if os_version = OsVersion.SP3 then "suse/ltss/sle15.3"
  else "bci"

/-- `ImageProperties` frozen dataclass: per-vendor properties of a container.
Field names ending in `prefix` in the source are abbreviated with `pfx`. -/
structure ImageProperties where
  maintainer : String
  vendor : String
  distribution_base_name : String
  registry : String
  url : String
  eula : String
  lifecycle_url : String
  label_pfx : String
  build_tag_pfx : String
  application_container_build_tag_pfx : String
  based_on_container_description : Option String := none
deriving DecidableEq, Repr

/-- `_OPENSUSE_IMAGE_PROPS`. -/
def OPENSUSE_IMAGE_PROPS : ImageProperties where
  maintainer := "openSUSE (https://www.opensuse.org/)"
  vendor := "openSUSE Project"
  registry := "registry.opensuse.org"
  url := "https://www.opensuse.org"
  eula := "sle-bci"
  lifecycle_url := "https://en.opensuse.org/Lifetime"
  label_pfx := "org.opensuse"
  distribution_base_name := "openSUSE Tumbleweed"
  build_tag_pfx := build_tag_pfx OsVersion.TUMBLEWEED
  application_container_build_tag_pfx := "opensuse"

/-- `_SLE_IMAGE_PROPS`. -/
def SLE_IMAGE_PROPS : ImageProperties where
  maintainer := "SUSE LLC (https://www.suse.com/)"
  vendor := "SUSE LLC"
  registry := "registry.suse.com"
  url := "https://www.suse.com/products/server/"
  eula := "sle-bci"
  lifecycle_url := "https://www.suse.com/lifecycle#suse-linux-enterprise-server-15"
  label_pfx := "com.suse"
  distribution_base_name := "SLE"
  build_tag_pfx := build_tag_pfx OsVersion.SP5
  application_container_build_tag_pfx := "suse"

/-- `_SLE_15_SP3_LTSS_IMAGE_PROPS`. -/
def SLE_15_SP3_LTSS_IMAGE_PROPS : ImageProperties where
  maintainer := "SUSE LLC (https://www.suse.com/)"
  vendor := "SUSE LLC"
  registry := "registry.suse.com"
  url := "https://www.suse.com/products/server/"
  eula := "sle-eula"
  lifecycle_url := "https://www.suse.com/lifecycle#suse-linux-enterprise-server-15"
  label_pfx := "com.suse"
  distribution_base_name := "SLE LTSS"
  build_tag_pfx := build_tag_pfx OsVersion.SP3
  application_container_build_tag_pfx := "suse"

/-- `_BASALT_IMAGE_PROPS`. -/
def BASALT_IMAGE_PROPS : ImageProperties where
  maintainer := "SUSE LLC (https://www.suse.com/)"
  vendor := "SUSE LLC"
  registry := "registry.suse.com"
  url := "https://susealp.io/"
  eula := "sle-bci"
  lifecycle_url := "https://www.suse.com/lifecycle"
  label_pfx := "com.suse.basalt"
  distribution_base_name := "Basalt Project"
  build_tag_pfx := build_tag_pfx OsVersion.BASALT
  application_container_build_tag_pfx := "suse"
  based_on_container_description := some "based on the SUSE Adaptable Linux Platform (ALP)"

/-- `BaseContainerImage` dataclass.  Fields that no modelled operation nor any
claim reads (`replacements_via_service`, `extra_labels`, `license`,
`support_level`, `supported_until`, `custom_labelprefix_end`,
`custom_description`) are omitted from the embedding; all defaults mirror the
dataclass defaults.  `extra_files` and `env` are insertion-ordered dicts and
are embedded as association lists. -/
structure BaseContainerImage where
  name : String
  pretty_name : String
  package_name : String
  os_version : OsVersion
  os_epoch : Option Nat := none
  from_image : Option String := some ""
  exclusive_arch : Option (List Arch) := none
  is_latest : Bool := false
  entrypoint : Option (List String) := none
  cmd : Option (List String) := none
  volumes : Option (List String) := none
  exposes_tcp : Option (List Nat) := none
  env : List (String × String) := []
  package_list : List PkgEntry := []
  custom_end : String := ""
  config_sh_script : String := ""
  config_sh_interpreter : String := "/bin/bash"
  maintainer : Option String := none
  extra_files : List (String × String) := []
  additional_names : List String := []
  build_recipe_type : Option BuildType := none
  no_recommends : Bool := true
  image_properties : ImageProperties := SLE_IMAGE_PROPS
deriving DecidableEq, Repr

namespace BaseContainerImage

/-- `BaseContainerImage.is_opensuse`. -/
def is_opensuse (c : BaseContainerImage) : Bool :=
  c.os_version = OsVersion.TUMBLEWEED

/-- `BaseContainerImage.__post_init__`: validation followed by defaulting of
`build_recipe_type`, `_image_properties` and `maintainer`.  A raised
`ValueError` is embedded as `Except.error`. -/
def post_init (c : BaseContainerImage) : Except String BaseContainerImage :=
  if c.package_list = [] then
    Except.error s!"No packages were added to {c.pretty_name}."
  else if (c.exclusive_arch.getD []) ≠ [] ∧ Arch.LOCAL ∈ c.exclusive_arch.getD [] then
    Except.error "local must not appear in self.exclusive_arch"
  else if c.config_sh_script ≠ "" ∧ c.custom_end ≠ "" then
    Except.error "Cannot specify both a custom_end and a config.sh script! Use just config_sh_script."
  else
    let brt := match c.build_recipe_type with
      | none =>
          some (if c.os_version = OsVersion.SP3 then BuildType.KIWI else BuildType.DOCKER)
      | some t => some t
    let props :=
      if c.is_opensuse then OPENSUSE_IMAGE_PROPS
      else if c.os_version = OsVersion.BASALT then BASALT_IMAGE_PROPS
      else if c.os_version = OsVersion.SP3 then SLE_15_SP3_LTSS_IMAGE_PROPS
      else SLE_IMAGE_PROPS
    let maint := match c.maintainer with
      | none => some props.maintainer
      | some "" => some props.maintainer
      | some m => some m
    Except.ok { c with build_recipe_type := brt, image_properties := props, maintainer := maint }

/-- `BaseContainerImage.registry`. -/
def registry (c : BaseContainerImage) : String := c.image_properties.registry

/-- `BaseContainerImage._registry_prefix` (name abbreviated). -/
def registry_pfx (c : BaseContainerImage) : String := c.image_properties.build_tag_pfx

/-- The loop body of `BaseContainerImage.packages`: find the first entry that
is a `Package` whose `pkg_type` is not `PackageType.IMAGE` (the source raises
on it). -/
def find_non_image_pkg : List PkgEntry → Option Package
  | [] => none
  | .plain _ :: rest => find_non_image_pkg rest
  | .pkg p :: rest =>
      if p.pkg_type ≠ PackageType.IMAGE then some p else find_non_image_pkg rest

/-- `BaseContainerImage.packages`: the package list joined for `zypper in`;
raises for kiwi-only package types. -/
def packages (c : BaseContainerImage) : Except String String :=
  match find_non_image_pkg c.package_list with
  | some p =>
      Except.error
        s!"Cannot add a package of type {p.pkg_type.str} into a Dockerfile based build."
  | none => Except.ok (String.intercalate " " (c.package_list.map PkgEntry.str))

end BaseContainerImage

/-- `LanguageStackContainer` dataclass; `version: Union[str, int]` is embedded
via its `str()` image (every modelled use of it goes through `str()`). -/
structure LanguageStackContainer where
  base : BaseContainerImage
  version : String := ""
  stability_tag : Option String := none
  additional_versions : List String := []
  version_in_uid : Bool := true
deriving DecidableEq, Repr

namespace LanguageStackContainer

/-- `LanguageStackContainer.__post_init__`: the base validation followed by
the version requirement. -/
def post_init (c : LanguageStackContainer) : Except String LanguageStackContainer :=
  match BaseContainerImage.post_init c.base with
  | Except.error e => Except.error e
  | Except.ok b =>
      if c.version = "" then
        Except.error "A language stack container requires a version"
      else
        Except.ok { c with base := b }

/-- `LanguageStackContainer.version_label`: `str(self.version)`. -/
def version_label (c : LanguageStackContainer) : String := c.version

/-- `LanguageStackContainer.uid`. -/
def uid (c : LanguageStackContainer) : String :=
  if c.version_in_uid then s!"{c.base.name}-{c.version}" else c.base.name

/-- `_STABILITY_TAG_ORDERING = (None, "stable", "oldstable")`. -/
def STABILITY_TAG_ORDERING : List (Option String) := [none, some "stable", some "oldstable"]

/-- `LanguageStackContainer._stability_suffix`: the position of the stability
tag in the fixed ordering, as a string; empty when the tag is unset (Python
falsy) or not in the ordering. -/
def stability_suffix (c : LanguageStackContainer) : String :=
  match c.stability_tag with
  | some s =>
      if s ≠ "" ∧ some s ∈ STABILITY_TAG_ORDERING then
        toString (STABILITY_TAG_ORDERING.indexOf (some s))
      else ""
  | none => ""

/-- `LanguageStackContainer._release_suffix`. -/
def release_suffix (c : LanguageStackContainer) : String :=
  if c.stability_suffix ≠ "" then s!"{c.stability_suffix}.%RELEASE%" else "%RELEASE%"

/-- The version-label list built inside `build_tags`:
`ver_labels = [self.version_label]`, with the stability tag prepended when
(Python-)truthy. -/
def ver_labels (c : LanguageStackContainer) : List String :=
  match c.stability_tag with
  | some s => if s ≠ "" then [s, c.version_label] else [c.version_label]
  | none => [c.version_label]

/-- `LanguageStackContainer.build_tags`. -/
def build_tags (c : LanguageStackContainer) : List String :=
  (c.base.name :: c.base.additional_names).flatMap fun name =>
    ((c.ver_labels ++ c.additional_versions).flatMap fun ver_label =>
      [s!"{c.base.registry_pfx}/{name}:{ver_label}",
       s!"{c.base.registry_pfx}/{name}:{ver_label}-{c.release_suffix}"])
    ++ (if c.base.is_latest then [s!"{c.base.registry_pfx}/{name}:latest"] else [])

/-- `LanguageStackContainer.reference`. -/
def reference (c : LanguageStackContainer) : String :=
  s!"{c.base.registry}/{c.base.registry_pfx}/{c.base.name}" ++
    s!":{c.version_label}-{c.release_suffix}"

end LanguageStackContainer

/-- `OsContainer` dataclass (no extra stored fields). -/
structure OsContainer where
  base : BaseContainerImage
deriving DecidableEq, Repr

namespace OsContainer

/-- `OsContainer` inherits `BaseContainerImage.__post_init__` unchanged. -/
def post_init (c : OsContainer) : Except String OsContainer :=
  match BaseContainerImage.post_init c.base with
  | Except.error e => Except.error e
  | Except.ok b => Except.ok { base := b }

/-- `OsContainer.uid`. -/
def uid (c : OsContainer) : String := c.base.name

/-- `OsContainer.version_label`. -/
def version_label (_c : OsContainer) : String := "%OS_VERSION_ID_SP%.%RELEASE%"

/-- `OsContainer.build_tags`. -/
def build_tags (c : OsContainer) : List String :=
  (c.base.name :: c.base.additional_names).flatMap fun name =>
    [s!"{c.base.registry_pfx}/bci-{name}:%OS_VERSION_ID_SP%",
     s!"{c.base.registry_pfx}/bci-{name}:{c.version_label}"]
    ++ (if c.base.is_latest then [s!"{c.base.registry_pfx}/bci-{name}:latest"] else [])

/-- `OsContainer.reference`. -/
def reference (c : OsContainer) : String :=
  s!"{c.base.registry}/{c.base.registry_pfx}/bci-{c.base.name}:{c.version_label}"

end OsContainer

/-! ## File emission (`write_files_to_folder`)

The destination folder is embedded as a partial map from file name to file
contents.  `bci_build.util.write_to_file` and the three templates from
`bci_build.templates` are not among the source files; per the spec they are
external collaborators (a byte-deterministic template engine and a plain file
writer), so they are modelled from the spec as deterministic functions.  The
wall-clock timestamps that the source takes from `datetime.now()` are explicit
parameters (`now`, `year`). -/

/-- The destination folder: maps a file name to its contents if it exists. -/
def FS := String → Option String

/-- `write_to_file(os.path.join(dest, fname), contents)`: modelled from the
spec as a plain overwriting file write into the destination map. -/
def write_file (fs : FS) (fname contents : String) : FS :=
  fun g => if g = fname then some contents else fs g

/-- Apply a list of file writes in order. -/
def apply_writes (fs : FS) (ws : List (String × String)) : FS :=
  ws.foldl (fun f w => write_file f w.1 w.2) fs

/-- Modelled from the spec: `bci_build.templates.DOCKERFILE_TEMPLATE.render`
is a black-box byte-deterministic renderer of the descriptor (the templates
module is not part of the source files). -/
def DOCKERFILE_TEMPLATE_render (c : BaseContainerImage) : String :=
  s!"# Dockerfile for {c.name}"

/-- Modelled from the spec: `bci_build.templates.KIWI_TEMPLATE.render`,
black-box byte-deterministic renderer (templates module not in the sources). -/
def KIWI_TEMPLATE_render (c : BaseContainerImage) : String :=
  s!"<kiwi image description for {c.name}>"

/-- Modelled from the spec: `bci_build.templates.SERVICE_TEMPLATE.render`,
black-box byte-deterministic renderer (templates module not in the sources). -/
def SERVICE_TEMPLATE_render (c : BaseContainerImage) : String :=
  s!"<services for {c.name}>"

namespace BaseContainerImage

/-- `BaseContainerImage.config_sh`: the full `config.sh` script required for
kiwi builds; raises when a `custom_end` is set without a `config_sh_script`.
`year` stands for `datetime.datetime.now().date().strftime("%Y")`. -/
def config_sh (c : BaseContainerImage) (year : String) : Except String String :=
  if c.config_sh_script = "" ∧ c.custom_end ≠ "" then
    Except.error "This image cannot be build as a kiwi image, it has a `custom_end` set."
  else
    Except.ok
      (s!"#!{c.config_sh_interpreter}\n" ++
       "# SPDX-License-Identifier: MIT\n" ++
       s!"# SPDX-FileCopyrightText: (c) 2022-{year} SUSE LLC\n\n" ++
       "set -euo pipefail\n\n" ++
       "test -f /.kconfig && . /.kconfig\n" ++
       "test -f /.profile && . /.profile\n\n" ++
       "echo \"Configure image: [$kiwi_iname]...\"\n\n" ++
       "#============================================\n" ++
       "# Import repositories\x27 keys if rpm is present\n" ++
       "#--------------------------------------------\n" ++
       "if command -v rpm > /dev/null; then\n" ++
       "    suseImportBuildKey\n" ++
       "fi\n\n" ++
       s!"{c.config_sh_script}\n\n" ++
       "#=======================================\n" ++
       "# Clean up after zypper if it is present\n" ++
       "#---------------------------------------\n" ++
       "if command -v zypper > /dev/null; then\n" ++
       "    zypper -n clean\n" ++
       "fi\n\n" ++
       "rm -rf /var/log/zypp\n\n" ++
       "exit 0\n")

end BaseContainerImage

/-- Python `str.capitalize()`: first character upper-cased, the rest
lower-cased. -/
def str_capitalize (s : String) : String :=
  match s.data with
  | [] => ""
  | ch :: rest => String.mk (ch.toUpper :: rest.map Char.toLower)

/-- Python substring containment `needle in hay`. -/
def str_in (needle hay : String) : Bool :=
  decide (needle.data <:+: hay.data)

/-- The `name_to_include` computation of `write_files_to_folder`.  `vinfo` is
`some (str(self.version), version_in_uid)` for descriptors that have a
`version` attribute (language/application stacks) and `none` otherwise. -/
def name_to_include (c : BaseContainerImage) (vinfo : Option (String × Bool)) : String :=
  let nti := if str_in "%" c.pretty_name then str_capitalize c.name else c.pretty_name
  match vinfo with
  | none => nti
  | some (ver, in_uid) =>
      if str_in ver nti = false ∧ in_uid then nti ++ s!" {ver}" else nti

/-- The contents of a freshly created changelog file; `now` stands for the
formatted UTC timestamp. -/
def changes_content (nti now : String) : String :=
  "-------------------------------------------------------------------\n" ++
  s!"{now} - SUSE Update Bot <bci-internal@suse.de>\n\n" ++
  s!"- First version of the {nti} BCI\n"

/-- The write plan of `BaseContainerImage.write_files_to_folder`: the ordered
list of file writes this invocation performs (in task-creation order) and the
returned list of file names.  The `assert False` on an unset
`build_recipe_type` and the `ValueError` from `config_sh` are embedded as
`Except.error`. -/
def write_plan (c : BaseContainerImage) (vinfo : Option (String × Bool))
    (now year : String) (fs : FS) :
    Except String (List (String × String) × List String) :=
  let branch : Except String (List (String × String) × List String) :=
    match c.build_recipe_type with
    | some BuildType.DOCKER =>
        let dockerfile := DOCKERFILE_TEMPLATE_render c
        let dockerfile :=
          if dockerfile.back ≠ '\n' then dockerfile ++ "\n" else dockerfile
        Except.ok ([("Dockerfile", dockerfile)], ["_service", "Dockerfile"])
    | some BuildType.KIWI =>
        let fname := c.package_name ++ ".kiwi"
        match c.config_sh year with
        | Except.error e => Except.error e
        | Except.ok cfg =>
            if cfg ≠ "" then
              Except.ok ([(fname, KIWI_TEMPLATE_render c), ("config.sh", cfg)],
                ["_service", fname, "config.sh"])
            else
              Except.ok ([(fname, KIWI_TEMPLATE_render c)], ["_service", fname])
    | none => Except.error "got an unexpected build_recipe_type: 'None'"
  match branch with
  | Except.error e => Except.error e
  | Except.ok (ws, files) =>
      let ws := ws ++ [("_service", SERVICE_TEMPLATE_render c)]
      let changes_file_name := c.package_name ++ ".changes"
      let (ws, files) :=
        if fs changes_file_name = none then
          (ws ++ [(changes_file_name,
                   changes_content (name_to_include c vinfo) now)],
           files ++ [changes_file_name])
        else (ws, files)
      Except.ok (ws ++ c.extra_files, files ++ c.extra_files.map Prod.fst)

/-- `BaseContainerImage.write_files_to_folder`: applies the write plan to the
destination folder and returns the new folder contents together with the
returned file-name list. -/
def write_files_to_folder (c : BaseContainerImage) (vinfo : Option (String × Bool))
    (now year : String) (fs : FS) : Except String (FS × List String) :=
  match write_plan c vinfo now year fs with
  | Except.error e => Except.error e
  | Except.ok (ws, files) => Except.ok (apply_writes fs ws, files)

/-- `write_files_to_folder` invoked on a `LanguageStackContainer` (which has a
`version` attribute and a `version_in_uid` flag). -/
def LanguageStackContainer.write_files_to_folder (c : LanguageStackContainer)
    (now year : String) (fs : FS) : Except String (FS × List String) :=
  BciBuild.write_files_to_folder c.base (some (c.version, c.version_in_uid)) now year fs

/-- `write_files_to_folder` invoked on an `OsContainer` (no `version`
attribute). -/
def OsContainer.write_files_to_folder (c : OsContainer)
    (now year : String) (fs : FS) : Except String (FS × List String) :=
  BciBuild.write_files_to_folder c.base none now year fs

/-! ## Concrete sample descriptors used to exercise the model -/

/-- A language-stack demo descriptor on SP5 (registry prefix `bci`). -/
def demo_base : BaseContainerImage where
  name := "demo"
  pretty_name := "Demo"
  package_name := "demo-image"
  os_version := OsVersion.SP5
  package_list := [PkgEntry.plain "pkg"]
  is_latest := true
  build_recipe_type := some BuildType.DOCKER

def demo_lang : LanguageStackContainer where
  base := demo_base
  version := "3.9"

/-- The value `__post_init__` produces from `demo_base`. -/
def demo_base_post : BaseContainerImage :=
  { demo_base with maintainer := some SLE_IMAGE_PROPS.maintainer }

def demo_lang_post : LanguageStackContainer :=
  { demo_lang with base := demo_base_post }

/-- An OS-base `init` descriptor on SP5 (registry prefix `bci`). -/
def init_os : OsContainer where
  base := {
    name := "init"
    pretty_name := "Init"
    package_name := "init-image"
    os_version := OsVersion.SP5
    package_list := [PkgEntry.plain "systemd"]
    build_recipe_type := some BuildType.DOCKER
  }

def init_os_post : OsContainer :=
  { base := { init_os.base with maintainer := some SLE_IMAGE_PROPS.maintainer } }

end BciBuild

/-! ## Helper lemmas -/

namespace BciBuild

theorem toString_str (s : String) : toString s = s := rfl

theorem append_congr_lit {p a b : String} (h : a = b) : p ++ a = p ++ b := by rw [h]

theorem string_append_right_inj {p s t : String} (h : p ++ s = p ++ t) : s = t := by
  have hd : p.data ++ s.data = p.data ++ t.data := by
    rw [← String.data_append, ← String.data_append, h]
  have h2 := List.append_cancel_left hd
  cases s
  cases t
  exact congrArg String.mk h2

theorem append_ne_of_not_suffix {s t : String} (h : ¬ s.data <:+ t.data) (p : String) :
    p ++ s ≠ t := by
  intro he
  apply h
  rw [← he, String.data_append]
  exact List.suffix_append _ _

theorem changes_ne_dockerfile (p : String) : p ++ ".changes" ≠ "Dockerfile" :=
  append_ne_of_not_suffix (by decide) p

theorem changes_ne_service (p : String) : p ++ ".changes" ≠ "_service" :=
  append_ne_of_not_suffix (by decide) p

theorem changes_ne_config_sh (p : String) : p ++ ".changes" ≠ "config.sh" :=
  append_ne_of_not_suffix (by decide) p

theorem changes_ne_kiwi (p : String) : p ++ ".changes" ≠ p ++ ".kiwi" := by
  intro h
  have := string_append_right_inj h
  exact absurd this (by decide)

theorem write_file_ne {fs : FS} {f g : String} (h : f ≠ g) (contents : String) :
    write_file fs f contents g = fs g := by
  simp [write_file, h.symm]

theorem apply_writes_not_mem (ws : List (String × String)) (fs : FS) (g : String)
    (h : ∀ w ∈ ws, w.1 ≠ g) : apply_writes fs ws g = fs g := by
  induction ws generalizing fs with
  | nil => rfl
  | cons w rest ih =>
      have hw : w.1 ≠ g := h w (List.mem_cons_self _ _)
      have hrest := ih (write_file fs w.1 w.2) (fun x hx => h x (List.mem_cons_of_mem _ hx))
      calc apply_writes fs (w :: rest) g
          = apply_writes (write_file fs w.1 w.2) rest g := rfl
        _ = write_file fs w.1 w.2 g := hrest
        _ = fs g := write_file_ne hw _

theorem find_non_image_pkg_eq_none (l : List PkgEntry) :
    BaseContainerImage.find_non_image_pkg l = none ↔
      ∀ p ∈ l, ∀ q, p = PkgEntry.pkg q → q.pkg_type = PackageType.IMAGE := by
  induction l with
  | nil => simp [BaseContainerImage.find_non_image_pkg]
  | cons hd tl ih =>
      cases hd with
      | plain s =>
          simp only [BaseContainerImage.find_non_image_pkg, ih, List.mem_cons]
          constructor
          · intro h p hp q hq
            rcases hp with hp | hp
            · rw [hp] at hq; cases hq
            · exact h p hp q hq
          · intro h p hp q hq
            exact h p (Or.inr hp) q hq
      | pkg q0 =>
          by_cases hq0 : q0.pkg_type = PackageType.IMAGE
          · simp only [BaseContainerImage.find_non_image_pkg, hq0]
            simp only [ne_eq, not_true_eq_false, if_false, ih, List.mem_cons]
            constructor
            · intro h p hp q hq
              rcases hp with hp | hp
              · rw [hp] at hq
                cases hq
                exact hq0
              · exact h p hp q hq
            · intro h p hp q hq
              exact h p (Or.inr hp) q hq
          · simp only [BaseContainerImage.find_non_image_pkg, ne_eq, hq0, not_false_iff,
              if_true, List.mem_cons]
            constructor
            · intro h; cases h
            · intro h
              exact absurd (h (PkgEntry.pkg q0) (Or.inl rfl) q0 rfl) hq0

end BciBuild

/-! ## Claim theorems -/

namespace BciBuild

/-- C1: for every language-stack descriptor with primary name `"demo"`, version
label `"3.9"`, no stability tag, no additional names or versions, and
`is_latest = true`, the derived build-tag list is exactly
`[{prefix}/demo:3.9, {prefix}/demo:3.9-%RELEASE%, {prefix}/demo:latest]` in
that order, where `{prefix}` is the descriptor's registry prefix. -/
theorem C1_demo_build_tags (c : LanguageStackContainer)
    (h1 : c.base.name = "demo") (h2 : c.version = "3.9")
    (h3 : c.stability_tag = none) (h4 : c.base.additional_names = [])
    (h5 : c.additional_versions = []) (h6 : c.base.is_latest = true) :
    c.build_tags =
      [c.base.registry_pfx ++ "/demo:3.9",
       c.base.registry_pfx ++ "/demo:3.9-%RELEASE%",
       c.base.registry_pfx ++ "/demo:latest"] := by
  simp only [LanguageStackContainer.build_tags, LanguageStackContainer.ver_labels,
    LanguageStackContainer.release_suffix, LanguageStackContainer.stability_suffix,
    LanguageStackContainer.version_label, h1, h2, h3, h4, h5, h6]
  simp only [toString_str, String.append_assoc, String.empty_append, String.append_empty,
    List.flatMap_cons, List.flatMap_nil, List.append_nil, List.cons_append,
    List.nil_append, if_true, ne_eq, not_true_eq_false, if_false, List.cons.injEq, and_true]
  refine ⟨append_congr_lit rfl, append_congr_lit rfl, append_congr_lit rfl⟩

/-- C1 witness: the demo descriptor on SP5 (prefix `bci`). -/
theorem C1_demo_build_tags_witness :
    demo_lang.build_tags =
      [demo_lang.base.registry_pfx ++ "/demo:3.9",
       demo_lang.base.registry_pfx ++ "/demo:3.9-%RELEASE%",
       demo_lang.base.registry_pfx ++ "/demo:latest"] :=
  C1_demo_build_tags demo_lang rfl rfl rfl rfl rfl rfl

/-- C2 (amended): the numeric stability index embedded in the release suffix
is 1 for `stability_tag = "stable"` and 2 for `"oldstable"`; when no stability
tag is set, no index is embedded at all (the release suffix is plain
`%RELEASE%`); the indices for "stable" and "oldstable" differ. -/
theorem C2_stability_suffix (c₁ c₂ c₃ : LanguageStackContainer)
    (h₁ : c₁.stability_tag = some "stable") (h₂ : c₂.stability_tag = some "oldstable")
    (h₃ : c₃.stability_tag = none) :
    c₁.stability_suffix = "1" ∧ c₂.stability_suffix = "2"
    ∧ c₁.release_suffix = "1.%RELEASE%" ∧ c₂.release_suffix = "2.%RELEASE%"
    ∧ c₃.stability_suffix = "" ∧ c₃.release_suffix = "%RELEASE%"
    ∧ c₁.stability_suffix ≠ c₂.stability_suffix := by
  have e₁ : c₁.stability_suffix = "1" := by
    simp only [LanguageStackContainer.stability_suffix, h₁]
    decide
  have e₂ : c₂.stability_suffix = "2" := by
    simp only [LanguageStackContainer.stability_suffix, h₂]
    decide
  have e₃ : c₃.stability_suffix = "" := by
    simp only [LanguageStackContainer.stability_suffix, h₃]
  refine ⟨e₁, e₂, ?_, ?_, e₃, ?_, ?_⟩
  · simp only [LanguageStackContainer.release_suffix, e₁]; decide
  · simp only [LanguageStackContainer.release_suffix, e₂]; decide
  · simp only [LanguageStackContainer.release_suffix, e₃]; decide
  · rw [e₁, e₂]; decide

/-- C2 counterexample: a descriptor with no stability tag does not get the
numeric index 0 embedded in its release suffix — nothing is embedded. -/
theorem C2_counterexample :
    demo_lang.stability_suffix ≠ "0"
    ∧ demo_lang.release_suffix ≠ "0.%RELEASE%"
    ∧ demo_lang.release_suffix = "%RELEASE%" := by decide

/-- C2 witness: concrete stable/oldstable/none descriptors. -/
theorem C2_stability_suffix_witness :
    ({ demo_lang with stability_tag := some "stable" } : LanguageStackContainer).stability_suffix = "1"
    ∧ ({ demo_lang with stability_tag := some "oldstable" } : LanguageStackContainer).stability_suffix = "2"
    ∧ ({ demo_lang with stability_tag := some "stable" } : LanguageStackContainer).release_suffix = "1.%RELEASE%"
    ∧ ({ demo_lang with stability_tag := some "oldstable" } : LanguageStackContainer).release_suffix = "2.%RELEASE%"
    ∧ ({ demo_lang with stability_tag := none } : LanguageStackContainer).stability_suffix = ""
    ∧ ({ demo_lang with stability_tag := none } : LanguageStackContainer).release_suffix = "%RELEASE%"
    ∧ ({ demo_lang with stability_tag := some "stable" } : LanguageStackContainer).stability_suffix ≠
        ({ demo_lang with stability_tag := some "oldstable" } : LanguageStackContainer).stability_suffix :=
  C2_stability_suffix
    { demo_lang with stability_tag := some "stable" }
    { demo_lang with stability_tag := some "oldstable" }
    { demo_lang with stability_tag := none } rfl rfl rfl

/-- C3: for every OS-base descriptor with name `"init"`, registry prefix
`"bci"`, no additional names and `is_latest = false`, the derived build-tag
list is exactly `["bci/bci-init:%OS_VERSION_ID_SP%",
"bci/bci-init:%OS_VERSION_ID_SP%.%RELEASE%"]` and the version label is
`"%OS_VERSION_ID_SP%.%RELEASE%"`. -/
theorem C3_init_build_tags (c : OsContainer)
    (h1 : c.base.name = "init") (h2 : c.base.registry_pfx = "bci")
    (h3 : c.base.additional_names = []) (h4 : c.base.is_latest = false) :
    c.build_tags =
      ["bci/bci-init:%OS_VERSION_ID_SP%", "bci/bci-init:%OS_VERSION_ID_SP%.%RELEASE%"]
    ∧ c.version_label = "%OS_VERSION_ID_SP%.%RELEASE%" := by
  constructor
  · simp only [OsContainer.build_tags, OsContainer.version_label, h1, h2, h3, h4]
    simp only [toString_str, String.append_assoc, String.empty_append, String.append_empty,
      List.flatMap_cons, List.flatMap_nil, List.append_nil, if_false, Bool.false_eq_true,
      List.cons_append, List.nil_append, List.cons.injEq, and_true]
    exact ⟨rfl, rfl⟩
  · rfl

/-- C3 witness: the concrete SP5 `init` container. -/
theorem C3_init_build_tags_witness :
    init_os.build_tags =
      ["bci/bci-init:%OS_VERSION_ID_SP%", "bci/bci-init:%OS_VERSION_ID_SP%.%RELEASE%"]
    ∧ init_os.version_label = "%OS_VERSION_ID_SP%.%RELEASE%" :=
  C3_init_build_tags init_os rfl rfl rfl rfl

/-- C4: for every language-stack descriptor — aliases and additional versions
included — the canonical pull reference is
`{registry}/{prefix}/{name}:{version-label}-{release-suffix}`, built from the
primary name and primary version label only, and is unchanged by any aliases
or additional versions. -/
theorem C4_reference (c : LanguageStackContainer) (ns vs : List String) :
    c.reference =
      c.base.registry ++ "/" ++ c.base.registry_pfx ++ "/" ++ c.base.name
        ++ ":" ++ c.version_label ++ "-" ++ c.release_suffix
    ∧ LanguageStackContainer.reference
        { c with base := { c.base with additional_names := ns },
                 additional_versions := vs } = c.reference := by
  constructor
  · simp only [LanguageStackContainer.reference, toString_str, String.append_assoc,
      String.empty_append, String.append_empty]
  · rfl

/-- C9: constructing a descriptor twice from identical inputs yields identical
derived build-tag lists and an identical canonical reference, for both the
language-stack and the OS-base variants. -/
theorem C9_determinism (l₁ l₂ r₁ r₂ : LanguageStackContainer) (o₁ o₂ s₁ s₂ : OsContainer)
    (hl : l₁ = l₂) (ho : o₁ = o₂)
    (h₁ : l₁.post_init = Except.ok r₁) (h₂ : l₂.post_init = Except.ok r₂)
    (h₃ : o₁.post_init = Except.ok s₁) (h₄ : o₂.post_init = Except.ok s₂) :
    r₁.build_tags = r₂.build_tags ∧ r₁.reference = r₂.reference
    ∧ s₁.build_tags = s₂.build_tags ∧ s₁.reference = s₂.reference := by
  subst hl
  subst ho
  rw [h₁] at h₂
  rw [h₃] at h₄
  injection h₂ with h₂
  injection h₄ with h₄
  subst h₂
  subst h₄
  exact ⟨rfl, rfl, rfl, rfl⟩

/-- C9 witness: the demo language container and the init OS container, each
constructed twice. -/
theorem C9_determinism_witness :
    demo_lang_post.build_tags = demo_lang_post.build_tags
    ∧ demo_lang_post.reference = demo_lang_post.reference
    ∧ init_os_post.build_tags = init_os_post.build_tags
    ∧ init_os_post.reference = init_os_post.reference :=
  C9_determinism demo_lang demo_lang demo_lang_post demo_lang_post
    init_os init_os init_os_post init_os_post rfl rfl rfl rfl rfl rfl

/-- C10: computing the space-joined package string for Dockerfile-based builds
raises an error whenever the package list contains a structured package entry
whose role is not the normal image role; for lists of plain names or
normal-role packages it returns the names joined by single spaces in list
order. -/
theorem C10_packages (c : BaseContainerImage) :
    ((∃ p ∈ c.package_list, ∃ q, p = PkgEntry.pkg q ∧ q.pkg_type ≠ PackageType.IMAGE) →
      ∃ e, c.packages = Except.error e)
    ∧ ((∀ p ∈ c.package_list, ∀ q, p = PkgEntry.pkg q → q.pkg_type = PackageType.IMAGE) →
      c.packages = Except.ok (String.intercalate " " (c.package_list.map PkgEntry.str))) := by
  constructor
  · rintro ⟨p, hp, q, rfl, hq⟩
    cases hfind : BaseContainerImage.find_non_image_pkg c.package_list with
    | none =>
        exact absurd ((find_non_image_pkg_eq_none c.package_list).1 hfind
          (PkgEntry.pkg q) hp q rfl) hq
    | some bad =>
        refine ⟨s!"Cannot add a package of type {bad.pkg_type.str} into a Dockerfile based build.",
          ?_⟩
        simp [BaseContainerImage.packages, hfind]
  · intro h
    have hfind : BaseContainerImage.find_non_image_pkg c.package_list = none :=
      (find_non_image_pkg_eq_none c.package_list).2 h
    simp [BaseContainerImage.packages, hfind]

/-- C10 witness: a bootstrap-role package makes `packages` fail; a mixed list
of a plain name and a normal-role package joins with single spaces. -/
theorem C10_packages_witness :
    (∃ e, BaseContainerImage.packages
        { demo_base with package_list :=
            [PkgEntry.plain "a", PkgEntry.pkg ⟨"b", PackageType.BOOTSTRAP⟩] } = Except.error e)
    ∧ BaseContainerImage.packages
        { demo_base with package_list :=
            [PkgEntry.plain "a", PkgEntry.pkg ⟨"b", PackageType.IMAGE⟩] } =
        Except.ok (String.intercalate " "
          (List.map PkgEntry.str [PkgEntry.plain "a", PkgEntry.pkg ⟨"b", PackageType.IMAGE⟩])) := by
  constructor
  · exact (C10_packages _).1
      ⟨PkgEntry.pkg ⟨"b", PackageType.BOOTSTRAP⟩, by simp, ⟨"b", PackageType.BOOTSTRAP⟩,
        rfl, by decide⟩
  · refine (C10_packages _).2 ?_
    intro p hp q hq
    simp only [List.mem_cons, List.not_mem_nil, or_false] at hp
    rcases hp with hp | hp
    · rw [hp] at hq; cases hq
    · rw [hp] at hq
      cases hq
      rfl

/-- C5: construction of a descriptor with an empty package list fails with a
validation error, and a successful construction never substitutes a package
list different from the given one (in particular never a non-empty default). -/
theorem C5_empty_package_list (c : BaseContainerImage) :
    (c.package_list = [] →
      BaseContainerImage.post_init c =
        Except.error s!"No packages were added to {c.pretty_name}.")
    ∧ (∀ c', BaseContainerImage.post_init c = Except.ok c' →
        c'.package_list = c.package_list) := by
  constructor
  · intro h
    simp [BaseContainerImage.post_init, h]
  · intro c' h
    unfold BaseContainerImage.post_init at h
    by_cases g1 : c.package_list = []
    · rw [if_pos g1] at h; exact absurd h (by simp)
    rw [if_neg g1] at h
    by_cases g2 : (c.exclusive_arch.getD []) ≠ [] ∧ Arch.LOCAL ∈ c.exclusive_arch.getD []
    · rw [if_pos g2] at h; exact absurd h (by simp)
    rw [if_neg g2] at h
    by_cases g3 : c.config_sh_script ≠ "" ∧ c.custom_end ≠ ""
    · rw [if_pos g3] at h; exact absurd h (by simp)
    rw [if_neg g3] at h
    injection h with h
    subst h
    rfl

/-- C5 witness: an empty package list errors; the demo descriptor keeps its
package list. -/
theorem C5_empty_package_list_witness :
    BaseContainerImage.post_init { demo_base with package_list := [] } =
      Except.error "No packages were added to Demo."
    ∧ demo_base_post.package_list = demo_base.package_list :=
  ⟨(C5_empty_package_list { demo_base with package_list := [] }).1 rfl,
   (C5_empty_package_list demo_base).2 demo_base_post rfl⟩

/-- C6: a descriptor setting both `custom_end` and the config script to
non-empty values fails construction with a validation error. -/
theorem C6_custom_end_config_sh (c : BaseContainerImage)
    (h1 : c.custom_end ≠ "") (h2 : c.config_sh_script ≠ "") :
    ∃ e, BaseContainerImage.post_init c = Except.error e := by
  unfold BaseContainerImage.post_init
  split_ifs with a b d
  · exact ⟨_, rfl⟩
  · exact ⟨_, rfl⟩
  · exact ⟨_, rfl⟩
  · exact absurd ⟨h2, h1⟩ d

/-- C6 witness: a concrete descriptor with both trailing-instruction fields
set. -/
theorem C6_custom_end_config_sh_witness :
    ∃ e, BaseContainerImage.post_init
      { demo_base with custom_end := "RUN true", config_sh_script := "true" } =
        Except.error e :=
  C6_custom_end_config_sh _ (by decide) (by decide)

/-- C7: after a successful construction the build-recipe-type field is always
set: it keeps an explicitly given value, otherwise it is defaulted from the OS
version by the fixed policy (kiwi for SP3, docker otherwise); the selected
format is always exactly one of the two. -/
theorem C7_build_recipe_type (c c' : BaseContainerImage)
    (h : BaseContainerImage.post_init c = Except.ok c') :
    c'.build_recipe_type =
      some (c.build_recipe_type.getD
        (if c.os_version = OsVersion.SP3 then BuildType.KIWI else BuildType.DOCKER))
    ∧ (c'.build_recipe_type = some BuildType.DOCKER
        ∨ c'.build_recipe_type = some BuildType.KIWI) := by
  have h1 : c'.build_recipe_type =
      some (c.build_recipe_type.getD
        (if c.os_version = OsVersion.SP3 then BuildType.KIWI else BuildType.DOCKER)) := by
    unfold BaseContainerImage.post_init at h
    by_cases g1 : c.package_list = []
    · rw [if_pos g1] at h; exact absurd h (by simp)
    rw [if_neg g1] at h
    by_cases g2 : (c.exclusive_arch.getD []) ≠ [] ∧ Arch.LOCAL ∈ c.exclusive_arch.getD []
    · rw [if_pos g2] at h; exact absurd h (by simp)
    rw [if_neg g2] at h
    by_cases g3 : c.config_sh_script ≠ "" ∧ c.custom_end ≠ ""
    · rw [if_pos g3] at h; exact absurd h (by simp)
    rw [if_neg g3] at h
    injection h with h
    subst h
    cases c.build_recipe_type <;> rfl
  refine ⟨h1, ?_⟩
  rw [h1]
  cases c.build_recipe_type.getD
      (if c.os_version = OsVersion.SP3 then BuildType.KIWI else BuildType.DOCKER) with
  | DOCKER => exact Or.inl rfl
  | KIWI => exact Or.inr rfl

/-- When the destination already contains the changelog file, the write plan
emits only the recipe file(s), `config.sh` (kiwi only), `_service` and the
extra files — never the changelog. -/
theorem write_plan_changes_exists (c : BaseContainerImage) (vinfo : Option (String × Bool))
    (now year : String) (fs : FS) (old : String)
    (hold : fs (c.package_name ++ ".changes") = some old)
    (ws : List (String × String)) (files : List String)
    (hok : write_plan c vinfo now year fs = Except.ok (ws, files)) :
    ∃ base_ws base_files,
      ws = base_ws ++ c.extra_files
      ∧ files = base_files ++ c.extra_files.map Prod.fst
      ∧ (∀ w ∈ base_ws, w.1 = "Dockerfile" ∨ w.1 = c.package_name ++ ".kiwi"
          ∨ w.1 = "config.sh" ∨ w.1 = "_service")
      ∧ (∀ f ∈ base_files, f = "Dockerfile" ∨ f = c.package_name ++ ".kiwi"
          ∨ f = "config.sh" ∨ f = "_service")
      ∧ "_service" ∈ base_files
      ∧ (c.build_recipe_type = some BuildType.DOCKER → "Dockerfile" ∈ base_files)
      ∧ (c.build_recipe_type = some BuildType.KIWI →
          (c.package_name ++ ".kiwi") ∈ base_files) := by
  unfold write_plan at hok
  rcases hb : c.build_recipe_type with _ | t
  · rw [hb] at hok
    simp at hok
  cases t with
  | DOCKER =>
      rw [hb] at hok
      simp only [hold] at hok
      simp only [reduceCtorEq, if_false] at hok
      rw [Except.ok.injEq, Prod.mk.injEq] at hok
      obtain ⟨hws, hfiles⟩ := hok
      refine ⟨[("Dockerfile",
          if (DOCKERFILE_TEMPLATE_render c).back ≠ '\n'
          then DOCKERFILE_TEMPLATE_render c ++ "\n" else DOCKERFILE_TEMPLATE_render c),
          ("_service", SERVICE_TEMPLATE_render c)],
        ["_service", "Dockerfile"], ?_, ?_, ?_, ?_, ?_, ?_, ?_⟩
      · rw [← hws]; simp
      · rw [← hfiles]
      · intro w hw
        rcases List.mem_cons.1 hw with rfl | hw
        · exact Or.inl rfl
        rcases List.mem_cons.1 hw with rfl | hw
        · exact Or.inr (Or.inr (Or.inr rfl))
        cases hw
      · intro f hf
        rcases List.mem_cons.1 hf with rfl | hf
        · exact Or.inr (Or.inr (Or.inr rfl))
        rcases List.mem_cons.1 hf with rfl | hf
        · exact Or.inl rfl
        cases hf
      · exact List.mem_cons_self _ _
      · intro _; exact List.mem_cons_of_mem _ (List.mem_cons_self _ _)
      · intro hk; exact absurd hk (by decide)
  | KIWI =>
      rw [hb] at hok
      unfold BaseContainerImage.config_sh at hok
      by_cases hcs : c.config_sh_script = "" ∧ c.custom_end ≠ ""
      · rw [if_pos hcs] at hok
        simp at hok
      rw [if_neg hcs] at hok
      dsimp only at hok
      set CFG :=
        (s!"#!{c.config_sh_interpreter}\n" ++
         "# SPDX-License-Identifier: MIT\n" ++
         s!"# SPDX-FileCopyrightText: (c) 2022-{year} SUSE LLC\n\n" ++
         "set -euo pipefail\n\n" ++
         "test -f /.kconfig && . /.kconfig\n" ++
         "test -f /.profile && . /.profile\n\n" ++
         "echo \"Configure image: [$kiwi_iname]...\"\n\n" ++
         "#============================================\n" ++
         "# Import repositories\x27 keys if rpm is present\n" ++
         "#--------------------------------------------\n" ++
         "if command -v rpm > /dev/null; then\n" ++
         "    suseImportBuildKey\n" ++
         "fi\n\n" ++
         s!"{c.config_sh_script}\n\n" ++
         "#=======================================\n" ++
         "# Clean up after zypper if it is present\n" ++
         "#---------------------------------------\n" ++
         "if command -v zypper > /dev/null; then\n" ++
         "    zypper -n clean\n" ++
         "fi\n\n" ++
         "rm -rf /var/log/zypp\n\n" ++
         "exit 0\n") with hCFG
      by_cases hne : CFG ≠ ""
      · rw [if_pos hne] at hok
        simp only [hold] at hok
        simp only [reduceCtorEq, if_false] at hok
        rw [Except.ok.injEq, Prod.mk.injEq] at hok
        obtain ⟨hws, hfiles⟩ := hok
        refine ⟨[(c.package_name ++ ".kiwi", KIWI_TEMPLATE_render c), ("config.sh", CFG),
            ("_service", SERVICE_TEMPLATE_render c)],
          ["_service", c.package_name ++ ".kiwi", "config.sh"], ?_, ?_, ?_, ?_, ?_, ?_, ?_⟩
        · rw [← hws]; simp
        · rw [← hfiles]
        · intro w hw
          rcases List.mem_cons.1 hw with rfl | hw
          · exact Or.inr (Or.inl rfl)
          rcases List.mem_cons.1 hw with rfl | hw
          · exact Or.inr (Or.inr (Or.inl rfl))
          rcases List.mem_cons.1 hw with rfl | hw
          · exact Or.inr (Or.inr (Or.inr rfl))
          cases hw
        · intro f hf
          rcases List.mem_cons.1 hf with rfl | hf
          · exact Or.inr (Or.inr (Or.inr rfl))
          rcases List.mem_cons.1 hf with rfl | hf
          · exact Or.inr (Or.inl rfl)
          rcases List.mem_cons.1 hf with rfl | hf
          · exact Or.inr (Or.inr (Or.inl rfl))
          cases hf
        · exact List.mem_cons_self _ _
        · intro hd; exact absurd hd (by decide)
        · intro _; exact List.mem_cons_of_mem _ (List.mem_cons_self _ _)
      · rw [if_neg hne] at hok
        simp only [hold] at hok
        simp only [reduceCtorEq, if_false] at hok
        rw [Except.ok.injEq, Prod.mk.injEq] at hok
        obtain ⟨hws, hfiles⟩ := hok
        refine ⟨[(c.package_name ++ ".kiwi", KIWI_TEMPLATE_render c),
            ("_service", SERVICE_TEMPLATE_render c)],
          ["_service", c.package_name ++ ".kiwi"], ?_, ?_, ?_, ?_, ?_, ?_, ?_⟩
        · rw [← hws]; simp
        · rw [← hfiles]
        · intro w hw
          rcases List.mem_cons.1 hw with rfl | hw
          · exact Or.inr (Or.inl rfl)
          rcases List.mem_cons.1 hw with rfl | hw
          · exact Or.inr (Or.inr (Or.inr rfl))
          cases hw
        · intro f hf
          rcases List.mem_cons.1 hf with rfl | hf
          · exact Or.inr (Or.inr (Or.inr rfl))
          rcases List.mem_cons.1 hf with rfl | hf
          · exact Or.inr (Or.inl rfl)
          cases hf
        · exact List.mem_cons_self _ _
        · intro hd; exact absurd hd (by decide)
        · intro _; exact List.mem_cons_of_mem _ (List.mem_cons_self _ _)

/-- C8 (amended): if the destination already contains the changelog file and
no extra-file entry reuses the changelog's filename, then the file-writing
operation leaves the changelog's contents unchanged and does not report it as
written, while the `_service` file and the build-recipe file are still
written. -/
theorem C8_changelog_preserved (c : BaseContainerImage) (vinfo : Option (String × Bool))
    (now year : String) (fs : FS) (old : String) (fs' : FS) (files : List String)
    (hold : fs (c.package_name ++ ".changes") = some old)
    (hextra : ∀ w ∈ c.extra_files, w.1 ≠ c.package_name ++ ".changes")
    (hok : write_files_to_folder c vinfo now year fs = Except.ok (fs', files)) :
    fs' (c.package_name ++ ".changes") = some old
    ∧ (c.package_name ++ ".changes") ∉ files
    ∧ "_service" ∈ files
    ∧ (c.build_recipe_type = some BuildType.DOCKER → "Dockerfile" ∈ files)
    ∧ (c.build_recipe_type = some BuildType.KIWI →
        (c.package_name ++ ".kiwi") ∈ files) := by
  unfold write_files_to_folder at hok
  rcases hplan : write_plan c vinfo now year fs with e | ⟨ws, fls⟩
  · rw [hplan] at hok; cases hok
  rw [hplan] at hok
  rw [Except.ok.injEq, Prod.mk.injEq] at hok
  obtain ⟨hfs, hfiles⟩ := hok
  obtain ⟨base_ws, base_files, hws, hfls, hkeys, hfkeys, hsrv, hdock, hkiwi⟩ :=
    write_plan_changes_exists c vinfo now year fs old hold ws fls hplan
  subst hfs hfiles hws hfls
  refine ⟨?_, ?_, ?_, ?_, ?_⟩
  · rw [apply_writes_not_mem]
    · exact hold
    · intro w hw
      rcases List.mem_append.1 hw with hw | hw
      · rcases hkeys w hw with h | h | h | h
        · rw [h]; exact (changes_ne_dockerfile c.package_name).symm
        · rw [h]; exact (changes_ne_kiwi c.package_name).symm
        · rw [h]; exact (changes_ne_config_sh c.package_name).symm
        · rw [h]; exact (changes_ne_service c.package_name).symm
      · exact hextra w hw
  · intro hmem
    rcases List.mem_append.1 hmem with hmem | hmem
    · rcases hfkeys _ hmem with h | h | h | h
      · exact changes_ne_dockerfile c.package_name h
      · exact changes_ne_kiwi c.package_name h
      · exact changes_ne_config_sh c.package_name h
      · exact changes_ne_service c.package_name h
    · obtain ⟨w, hw, hw1⟩ := List.mem_map.1 hmem
      exact hextra w hw hw1
  · exact List.mem_append.2 (Or.inl hsrv)
  · intro hd
    exact List.mem_append.2 (Or.inl (hdock hd))
  · intro hk
    exact List.mem_append.2 (Or.inl (hkiwi hk))

/-- A demo descriptor whose package name is `testpkg` (changelog file name
`testpkg.changes`). -/
def C8base : BaseContainerImage :=
  { demo_base with package_name := "testpkg" }

/-- A destination folder that already contains `testpkg.changes`. -/
def C8fs : FS := write_file (fun _ => none) "testpkg.changes" "orig"

/-- C8 witness: writing the demo descriptor's files into a destination that
already contains `testpkg.changes` keeps its contents. -/
theorem C8_changelog_preserved_witness :
    apply_writes C8fs
        [("Dockerfile", "# Dockerfile for demo\n"), ("_service", "<services for demo>")]
        (C8base.package_name ++ ".changes") = some "orig"
    ∧ (C8base.package_name ++ ".changes") ∉
        (["_service", "Dockerfile"] : List String)
    ∧ "_service" ∈ (["_service", "Dockerfile"] : List String)
    ∧ (C8base.build_recipe_type = some BuildType.DOCKER →
        "Dockerfile" ∈ (["_service", "Dockerfile"] : List String))
    ∧ (C8base.build_recipe_type = some BuildType.KIWI →
        (C8base.package_name ++ ".kiwi") ∈ (["_service", "Dockerfile"] : List String)) :=
  C8_changelog_preserved C8base (some ("3.9", true)) "NOW" "2026" C8fs "orig"
    (apply_writes C8fs
      [("Dockerfile", "# Dockerfile for demo\n"), ("_service", "<services for demo>")])
    ["_service", "Dockerfile"]
    (by decide)
    (by intro w hw; exact absurd hw (List.not_mem_nil w))
    (by rfl)

/-- C8 counterexample: the claim as stated is false — a descriptor whose
`extra_files` mapping contains an entry named like the changelog file
overwrites an existing changelog at the destination. -/
theorem C8_counterexample :
    C8fs "testpkg.changes" = some "orig"
    ∧ (write_files_to_folder { C8base with extra_files := [("testpkg.changes", "boom")] }
          (some ("3.9", true)) "NOW" "2026" C8fs).map (fun r => r.1 "testpkg.changes") =
        Except.ok (some "boom")
    ∧ (some "boom" : Option String) ≠ some "orig" := by
  refine ⟨rfl, by rfl, by decide⟩

/-- C7 witness: the demo descriptor (explicit docker recipe type) constructs
to a descriptor with the docker recipe type. -/
theorem C7_build_recipe_type_witness :
    demo_base_post.build_recipe_type =
      some (demo_base.build_recipe_type.getD
        (if demo_base.os_version = OsVersion.SP3 then BuildType.KIWI else BuildType.DOCKER))
    ∧ (demo_base_post.build_recipe_type = some BuildType.DOCKER
        ∨ demo_base_post.build_recipe_type = some BuildType.KIWI) :=
  C7_build_recipe_type demo_base demo_base_post rfl

end BciBuild
